import Mathlib

/-!
Shallow embedding of the authentication and token lifecycle code of the
netatmo-api-python repository (src/pyatmo/auth.py and src/pyatmo/helpers.py),
together with theorems settling the claims about it.

Modelling conventions:
- JSON values decoded from HTTP bodies are the inductive type JVal.
- The HTTP layer (requests.post) is abstracted as a function Net from the url
  and the form parameters to an HttpResponse; the field jsonBody is some v
  exactly when the body decodes as JSON (resp.json succeeds with v).
- Stateful Python code becomes explicit state passing; observable side effects
  (outbound HTTP posts, log lines, the token updater callback) are collected in
  a trace of Effect values, returned alongside the result.
- Python exceptions become the error side of Except PyError.
- time.time() is passed in as an integer number of seconds (now); the int()
  truncation at auth.py line 62 and 103 is exact under this integral model.
-/

namespace Pyatmo

/-- JSON-like Python values as decoded from an HTTP response body. -/
inductive JVal where
  | str (s : String)
  | num (n : Int)
  | bool (b : Bool)
  | null
  | arr (xs : List JVal)
  | obj (kvs : List (String × JVal))

/-- The value ClientAuth.postRequest and NetatmOAuth2.postRequest hand back to
their caller: a decoded JSON value, the raw bytes of the body, or Python None
(auth.py lines 68 to 76). -/
inductive RespValue where
  | json (v : JVal)
  | bytes (b : List Nat)
  | pyNone

/-- Python exceptions the embedded code can raise. The noDevice constructor is
the NoDevice exception imported from pyatmo.exceptions, a module that is not
under src; modelled from the spec, which calls this failure AuthError (section
7: initial grant exchange or refresh failed). -/
inductive PyError where
  | typeError
  | keyError (k : String)
  | attributeError (attr : String)
  | jsonDecodeError
  | noDevice (msg : String)

/-- Whether an error is the authentication failure the spec names AuthError. -/
def isAuthError : PyError → Bool
  | .noDevice _ => true
  | _ => false

/-- Observable side effects of the embedded code, in order of occurrence. -/
inductive Effect where
  | httpPost (url : String) (params : List (String × JVal))
  | logStatusError (status : Nat)
  | logApiErrorBody (e : JVal)
  | logInvalidResponse
  | logErrorsInResponse
  | logRefreshedToken (token : JVal)
  | updaterCall (token : JVal)

/-- Abstraction of the HTTP layer: what requests.post returns for a given url
and form body. -/
structure HttpResponse where
  ok : Bool
  status : Nat
  contentType : Option String
  jsonBody : Option JVal
  content : List Nat

/-- The network environment: the response served for each outbound POST. -/
abbrev Net := String → List (String × JVal) → HttpResponse

/-- A network that serves the same response to every request. -/
def constNet (r : HttpResponse) : Net := fun _ _ => r

/-- A successful JSON response with the given decoded body. -/
def jsonOkResp (v : JVal) : HttpResponse :=
  { ok := true, status := 200, contentType := some "application/json",
    jsonBody := some v, content := [] }

def _BASE_URL : String := "https://api.netatmo.com/"

def _AUTH_REQ : String := _BASE_URL ++ "oauth2/token"

/-- Whether the first list is a contiguous infix of the second. -/
def listInfixOf (needle : List Char) : List Char → Bool
  | [] => needle.isEmpty
  | b :: bs => needle.isPrefixOf (b :: bs) || listInfixOf needle bs

/-- Python substring test, as in the content type check at auth.py line 71. -/
def strContains (needle hay : String) : Bool :=
  listInfixOf needle.toList hay.toList

/-- Python subscript resp[k] with a str key, for the values this code handles:
lookup with KeyError on a dict, TypeError on every other value (None, bytes, a
decoded JSON str, list, number, boolean or null). -/
def subscr (v : RespValue) (k : String) : Except PyError JVal :=
  match v with
  | .json (.obj kvs) =>
    match kvs.lookup k with
    | some x => .ok x
    | none => .error (.keyError k)
  | _ => .error .typeError

/-- Python membership test k in v with a str needle: key test on a dict,
substring test on a str, element test on a list, TypeError on bytes, None and
the scalar values. A str needle can only equal str list elements. -/
def pyContains (k : String) (v : RespValue) : Except PyError Bool :=
  match v with
  | .json (.obj kvs) => .ok (kvs.lookup k).isSome
  | .json (.str s) => .ok (strContains k s)
  | .json (.arr xs) =>
    .ok (xs.any fun x => match x with | .str t => t == k | _ => false)
  | _ => .error .typeError

/-- Python dict update d.update(e): values of d overridden by e in place, keys
new in e appended in order. -/
def pyDictUpdate (d e : List (String × JVal)) : List (String × JVal) :=
  (d.map fun kv => match e.lookup kv.1 with | some v => (kv.1, v) | none => kv)
    ++ e.filter fun kv => (d.lookup kv.1).isNone

/-- ClientAuth.postRequest (auth.py lines 64 to 76): issue the POST, log a non
success status, then classify the body by content type inside a try block that
catches TypeError only. A missing content-type header makes the membership
test raise TypeError, caught and turned into a logged None; a JSON content
type whose body does not decode raises a JSON decode error that is NOT caught
and propagates; any other content type yields the raw bytes.
NetatmOAuth2.postRequest (auth.py lines 179 to 190) ends in this same code. -/
def methodPostRequest (net : Net) (url : String) (params : List (String × JVal)) :
    List Effect × Except PyError RespValue :=
  let resp := net url params
  let tr := [Effect.httpPost url params]
    ++ (if resp.ok then [] else [Effect.logStatusError resp.status])
  match resp.contentType with
  | none => (tr ++ [Effect.logInvalidResponse], .ok RespValue.pyNone)
  | some ct =>
    if strContains "application/json" ct then
      match resp.jsonBody with
      | some v => (tr, .ok (RespValue.json v))
      | none => (tr, .error PyError.jsonDecodeError)
    else (tr, .ok (RespValue.bytes resp.content))

/-- The value part of methodPostRequest as a function of the response alone:
the content type classification of auth.py lines 68 to 76. -/
def bodyClassification (r : HttpResponse) : Except PyError RespValue :=
  match r.contentType with
  | none => .ok RespValue.pyNone
  | some ct =>
    if strContains "application/json" ct then
      match r.jsonBody with
      | some v => .ok (RespValue.json v)
      | none => .error PyError.jsonDecodeError
    else .ok (RespValue.bytes r.content)

/-- The state of a ClientAuth instance, with the attributes set by __init__
(auth.py lines 52 to 62). -/
structure ClientAuthState where
  _clientId : JVal
  _clientSecret : JVal
  _accessToken : JVal
  token : RespValue
  refreshToken : JVal
  _scope : JVal
  expiration : Int

/-- ClientAuth.__init__ (auth.py lines 40 to 62): posts the password grant to
the token endpoint, then reads the response. The try block catches KeyError on
the access_token subscript only: in the handler, the log line subscripts the
error field, so a response lacking both access_token and error raises that
second KeyError instead of NoDevice; a non dict response raises TypeError
uncaught. After the try block, the refresh_token, scope and expire_in
subscripts raise KeyError uncaught when missing. The stored expiration is the
expire_in field plus the current time minus 1800. A boolean expire_in is
numeric in Python; any other non numeric expire_in makes the addition raise
TypeError. -/
def clientAuthInit (net : Net) (clientId clientSecret username password scope : JVal)
    (now : Int) : List Effect × Except PyError ClientAuthState :=
  let postParams := [("grant_type", JVal.str "password"), ("client_id", clientId),
    ("client_secret", clientSecret), ("username", username), ("password", password),
    ("scope", scope)]
  match methodPostRequest net _AUTH_REQ postParams with
  | (tr, .error e) => (tr, .error e)
  | (tr, .ok resp) =>
    match subscr resp "access_token" with
    | .error (.keyError _) =>
      match subscr resp "error" with
      | .ok e => (tr ++ [Effect.logApiErrorBody e],
          .error (.noDevice "Authentication against Netatmo API failed"))
      | .error e2 => (tr, .error e2)
    | .error e => (tr, .error e)
    | .ok accessTok =>
      match subscr resp "refresh_token" with
      | .error e => (tr, .error e)
      | .ok refTok =>
        match subscr resp "scope" with
        | .error e => (tr, .error e)
        | .ok sc =>
          match subscr resp "expire_in" with
          | .error e => (tr, .error e)
          | .ok (.num lifetime) =>
            (tr, .ok { _clientId := clientId, _clientSecret := clientSecret,
                       _accessToken := accessTok, token := resp,
                       refreshToken := refTok, _scope := sc,
                       expiration := lifetime + now - 1800 })
          | .ok (.bool b) =>
            (tr, .ok { _clientId := clientId, _clientSecret := clientSecret,
                       _accessToken := accessTok, token := resp,
                       refreshToken := refTok, _scope := sc,
                       expiration := (if b then 1 else 0) + now - 1800 })
          | .ok _ => (tr, .error .typeError)

/-- The module level helpers.postRequest (helpers.py lines 11 to 17)
specialized to a str auth argument, as in the call at auth.py line 100 where
the name postRequest resolves to the module global imported from helpers and
receives the token endpoint URL string as auth. Its first statement reads
auth.accessToken, and a str has no such attribute, so AttributeError is raised
before anything else happens; the url and params arguments are never used. -/
def helpersPostRequestOnStrAuth (auth : String) (urlArg : List (String × JVal)) :
    List Effect × Except PyError RespValue :=
  ([], .error (.attributeError "accessToken"))

/-- ClientAuth.accessToken property (auth.py lines 91 to 104). When the stored
expiration is strictly below the current time it attempts a refresh: it builds
the refresh params and calls the module level helpers.postRequest with the
token endpoint URL as the auth argument (line 100), which raises
AttributeError. Were a response dict ever obtained, lines 101 to 103 would
store the new access token, refresh token and expiration. Otherwise the stored
access token is returned with the state unchanged. -/
def clientAuthAccessToken (net : Net) (now : Int) (s : ClientAuthState) :
    List Effect × Except PyError (JVal × ClientAuthState) :=
  if s.expiration < now then
    let postParams := [("grant_type", JVal.str "refresh_token"),
      ("refresh_token", s.refreshToken), ("client_id", s._clientId),
      ("client_secret", s._clientSecret)]
    match helpersPostRequestOnStrAuth _AUTH_REQ postParams with
    | (tr, .error e) => (tr, .error e)
    | (tr, .ok resp) =>
      match subscr resp "access_token" with
      | .error e => (tr, .error e)
      | .ok a =>
        match subscr resp "refresh_token" with
        | .error e => (tr, .error e)
        | .ok r =>
          match subscr resp "expire_in" with
          | .error e => (tr, .error e)
          | .ok (.num lifetime) =>
            (tr, .ok (a, { s with _accessToken := a, refreshToken := r,
                                  expiration := lifetime + now - 1800 }))
          | .ok (.bool b) =>
            (tr, .ok (a, { s with _accessToken := a, refreshToken := r,
                                  expiration := (if b then 1 else 0) + now - 1800 }))
          | .ok _ => (tr, .error .typeError)
  else ([], .ok (s._accessToken, s))

/-- The test at helpers.py line 15, with Python short circuit evaluation:
errors in resp, or body not in resp, or home not in resp of body. Returns
whether the debug line is logged, or the error the test raises. -/
def checkErrors (resp : RespValue) : Except PyError Bool :=
  match pyContains "errors" resp with
  | .error e => .error e
  | .ok true => .ok true
  | .ok false =>
    match pyContains "body" resp with
    | .error e => .error e
    | .ok false => .ok true
    | .ok true =>
      match subscr resp "body" with
      | .error e => .error e
      | .ok b =>
        match pyContains "home" (RespValue.json b) with
        | .error e => .error e
        | .ok h => .ok (!h)

/-- The auth argument of the module level helpers.postRequest: a ClientAuth
instance at the call sites of auth.py lines 83 and 88, the URL string
_AUTH_REQ at the call site of line 100. -/
inductive AuthArg where
  | client (s : ClientAuthState)
  | strVal (u : String)

/-- The module level helpers.postRequest (helpers.py lines 11 to 17): reads
auth.accessToken (an AttributeError on a str; on a client, the property that
refreshes an expired token as a side effect), merges the token into the
params, issues the POST through the postRequest method of auth, then runs the
membership test of line 15 on the result, which raises TypeError when the
result does not support the in operator with a str operand; finally returns
the result unchanged. -/
def helpersPostRequest (net : Net) (now : Int) (auth : AuthArg) (url : String)
    (params : List (String × JVal)) :
    List Effect × Except PyError (RespValue × AuthArg) :=
  match auth with
  | .strVal u =>
    match helpersPostRequestOnStrAuth u params with
    | (tr, .error e) => (tr, .error e)
    | (tr, .ok resp) => (tr, .ok (resp, .strVal u))
  | .client s =>
    match clientAuthAccessToken net now s with
    | (tr, .error e) => (tr, .error e)
    | (tr, .ok (tok, s2)) =>
      let postParams := pyDictUpdate [("access_token", tok)] params
      match methodPostRequest net url postParams with
      | (tr2, .error e) => (tr ++ tr2, .error e)
      | (tr2, .ok resp) =>
        match checkErrors resp with
        | .error e => (tr ++ tr2, .error e)
        | .ok true =>
          (tr ++ tr2 ++ [Effect.logErrorsInResponse], .ok (resp, .client s2))
        | .ok false => (tr ++ tr2, .ok (resp, .client s2))

/-- The state of a NetatmOAuth2 instance, as far as refresh_tokens reads it:
whether a token updater callback was supplied at construction. -/
structure NetState where
  hasUpdater : Bool

/-- NetatmOAuth2.refresh_tokens (auth.py lines 141 to 150): calls the refresh
of the wrapped OAuth2 session (abstracted as the refreshed argument: the token
it returns, or the error it raises), logs the token, invokes the token updater
callback with the new token when one was supplied, and only then returns the
token. -/
def refresh_tokens (s : NetState) (refreshed : Except PyError JVal) :
    List Effect × Except PyError JVal :=
  match refreshed with
  | .error e => ([], .error e)
  | .ok token =>
    ([Effect.logRefreshedToken token]
       ++ (if s.hasUpdater then [Effect.updaterCall token] else []),
     .ok token)

/-- Count of outbound POSTs to the token endpoint in a trace: the number of
token refresh (or grant) requests actually issued. -/
def refreshPosts (tr : List Effect) : Nat :=
  tr.countP fun e => match e with | .httpPost u _ => u == _AUTH_REQ | _ => false

/-- ClientAuth.__init__ against a network constantly serving the JSON object o
from the token endpoint, with fixed client parameters. -/
def clientAuthInitOn (o : List (String × JVal)) (t : Int) :
    List Effect × Except PyError ClientAuthState :=
  clientAuthInit (constNet (jsonOkResp (JVal.obj o))) (JVal.str "CID")
    (JVal.str "SEC") (JVal.str "USR") (JVal.str "PWD") (JVal.str "read_station") t

/-- The result part of a helpersPostRequest outcome: the auth object coming
back on success, none on an exception. -/
def resultAuth (x : List Effect × Except PyError (RespValue × AuthArg)) :
    Option AuthArg :=
  match x.2 with
  | .ok (_, a) => some a
  | .error _ => none

/-! ## Shared evaluation lemmas -/

theorem strContains_appjson : strContains "application/json" "application/json" = true := rfl

/-- Evaluation of the initial exchange when the token endpoint serves a JSON
object carrying every field the code reads. -/
theorem clientAuthInitOn_success (o : List (String × JVal)) (t : Int) (a r sc : JVal)
    (lifetime : Int) (ha : o.lookup "access_token" = some a)
    (hr : o.lookup "refresh_token" = some r) (hs : o.lookup "scope" = some sc)
    (hL : o.lookup "expire_in" = some (JVal.num lifetime)) :
    (clientAuthInitOn o t).2 = .ok
      { _clientId := JVal.str "CID", _clientSecret := JVal.str "SEC",
        _accessToken := a, token := RespValue.json (JVal.obj o), refreshToken := r,
        _scope := sc, expiration := lifetime + t - 1800 } := by
  simp [clientAuthInitOn, clientAuthInit, methodPostRequest, constNet, jsonOkResp,
    strContains_appjson, subscr, ha, hr, hs, hL]

/-! ## Claim C1 -/

/-- The token endpoint response exactly as spec section 6 describes it:
access_token, refresh_token, expires_in and scope, for the scenario of spec
section 8 (lifetime 3600). -/
def specGrantResp : List (String × JVal) :=
  [("access_token", JVal.str "A1"), ("refresh_token", JVal.str "R1"),
   ("expires_in", JVal.num 3600), ("scope", JVal.str "read_station")]

/-- A grant response carrying, in addition, the lifetime field the code
actually reads, expire_in. -/
def codeGrantResp : List (String × JVal) :=
  [("access_token", JVal.str "A1"), ("refresh_token", JVal.str "R1"),
   ("scope", JVal.str "read_station"), ("expire_in", JVal.num 3600)]

/-- Claim C1 counterexample: a grant exchange at t 1000 whose response reports
its lifetime in the expires_in field of spec section 6 does not produce a
Credential with expiry 2800; it raises KeyError, because the code reads the
field expire_in. -/
theorem c1_spec_field_counterexample :
    (clientAuthInitOn specGrantResp 1000).2 = .error (.keyError "expire_in") := rfl

/-- Claim C1 (amended): for every successful initial grant exchange at time t,
the stored expiry equals t plus lifetime minus 1800, where the lifetime is the
expire_in field of the response (not the expires_in field of spec section 6;
the other fields the code reads must be present for success). -/
theorem c1_expiry_arithmetic (o : List (String × JVal)) (t : Int) (a r sc : JVal)
    (lifetime : Int) (ha : o.lookup "access_token" = some a)
    (hr : o.lookup "refresh_token" = some r) (hs : o.lookup "scope" = some sc)
    (hL : o.lookup "expire_in" = some (JVal.num lifetime)) :
    ∃ st, (clientAuthInitOn o t).2 = .ok st ∧ st.expiration = t + lifetime - 1800 := by
  refine ⟨_, clientAuthInitOn_success o t a r sc lifetime ha hr hs hL, ?_⟩
  show lifetime + t - 1800 = t + lifetime - 1800
  omega

/-- Claim C1 witness: the spec section 8 scenario run on the field the code
reads: expire_in 3600 at t 1000 yields expiry 2800. -/
theorem c1_witness :
    ∃ st, (clientAuthInitOn codeGrantResp 1000).2 = .ok st
      ∧ st.expiration = 1000 + 3600 - 1800 :=
  c1_expiry_arithmetic codeGrantResp 1000 (JVal.str "A1") (JVal.str "R1")
    (JVal.str "read_station") 3600 rfl rfl rfl rfl

/-! ## Claim C2 -/

/-- A Credential as of the spec section 8 scenario: stored expiry 2800. -/
def c2state : ClientAuthState :=
  { _clientId := JVal.str "CID", _clientSecret := JVal.str "SEC",
    _accessToken := JVal.str "A1", token := RespValue.json (JVal.obj codeGrantResp),
    refreshToken := JVal.str "R1", _scope := JVal.str "read_station",
    expiration := 2800 }

/-- A network constantly serving a complete, successful refresh response, with
the lifetime under both field spellings. -/
def c2net : Net := constNet (jsonOkResp (JVal.obj
  [("access_token", JVal.str "A2"), ("refresh_token", JVal.str "R2"),
   ("expire_in", JVal.num 3600), ("expires_in", JVal.num 3600),
   ("scope", JVal.str "read_station")]))

/-- Claim C2 (code bug): a call at now 2900, past the stored expiry 2800,
raises AttributeError instead of refreshing. The accessToken property calls
the module level helpers.postRequest with the token endpoint URL string as its
auth argument (auth.py line 100), and a str has no accessToken attribute. The
empty trace shows that no refresh request and no underlying request is ever
issued, even though the network stands ready with a perfect refresh response. -/
theorem c2_expired_call_raises_attribute_error :
    clientAuthAccessToken c2net 2900 c2state
      = ([], .error (.attributeError "accessToken")) := rfl

/-! ## Claim C3 -/

/-- A Credential whose stored expiry 100 is in the past for the calls below. -/
def c3state : ClientAuthState :=
  { _clientId := JVal.str "CID3", _clientSecret := JVal.str "SEC3",
    _accessToken := JVal.str "A3", token := RespValue.json (JVal.obj []),
    refreshToken := JVal.str "R3", _scope := JVal.str "read_station",
    expiration := 100 }

/-- A network on which any refresh would be rejected by the provider: the token
endpoint answers with an error body only. -/
def c3net : Net := constNet (jsonOkResp (JVal.obj [("error", JVal.str "invalid_grant")]))

/-- Claim C3 counterexample: a refresh attempt at now 200 fails (AttributeError,
empty trace, state untouched since the error escapes before any assignment); a
subsequent call at now 300 on the unchanged Credential re-enters the refresh
path and fails with the same AttributeError, which is not the AuthError the
claim requires. -/
theorem c3_not_auth_error_counterexample :
    clientAuthAccessToken c3net 200 c3state
        = ([], .error (.attributeError "accessToken"))
      ∧ clientAuthAccessToken c3net 300 c3state
        = ([], .error (.attributeError "accessToken"))
      ∧ isAuthError (.attributeError "accessToken") = false :=
  ⟨rfl, rfl, rfl⟩

/-- Claim C3 (amended): a failed refresh attempt leaves the Credential exactly
as it was, and every subsequent call past expiry re-attempts the refresh and
fails identically with AttributeError, never with AuthError; no HTTP request
of any kind is issued (the trace is empty), so there is no terminal INVALID
state and no fail fast AuthError, only the same crash each time. -/
theorem c3_refresh_retried_same_error (net : Net) (now : Int) (s : ClientAuthState)
    (h : s.expiration < now) :
    clientAuthAccessToken net now s = ([], .error (.attributeError "accessToken"))
      ∧ isAuthError (.attributeError "accessToken") = false := by
  refine ⟨?_, rfl⟩
  simp [clientAuthAccessToken, helpersPostRequestOnStrAuth, h]

/-- Claim C3 witness: the amended statement at a concrete later call. -/
theorem c3_witness :
    clientAuthAccessToken c3net 500 c3state
        = ([], .error (.attributeError "accessToken"))
      ∧ isAuthError (.attributeError "accessToken") = false :=
  c3_refresh_retried_same_error c3net 500 c3state (by decide)

/-! ## Claim C6 -/

/-- A response with a non success status 404 and a parseable JSON error body. -/
def c6resp : HttpResponse :=
  { ok := false, status := 404, contentType := some "application/json",
    jsonBody := some (JVal.obj [("error", JVal.num 9)]), content := [] }

/-- Claim C6 counterexample: a POST answered with status 404 does not fail with
any error carrying the status code; the parsed body is returned to the caller,
and the only record of the non success status is a log line. -/
theorem c6_status_only_logged_counterexample :
    methodPostRequest (constNet c6resp) "https://api.netatmo.com/api/getstationsdata" []
      = ([Effect.httpPost "https://api.netatmo.com/api/getstationsdata" [],
          Effect.logStatusError 404],
         .ok (RespValue.json (JVal.obj [("error", JVal.num 9)]))) := rfl

/-- Claim C6 (amended): a non success HTTP status never aborts the call: the
status code is logged, and the body is classified and returned to the caller
exactly as it would be for a success. -/
theorem c6_log_and_return_body (r : HttpResponse) (url : String)
    (params : List (String × JVal)) (h : r.ok = false) :
    Effect.logStatusError r.status ∈ (methodPostRequest (constNet r) url params).1
      ∧ (methodPostRequest (constNet r) url params).2 = bodyClassification r := by
  constructor
  · rcases hct : r.contentType with _ | ct
    · simp [methodPostRequest, constNet, h, hct]
    · by_cases hj : strContains "application/json" ct
      · rcases hv : r.jsonBody with _ | v <;>
          simp [methodPostRequest, constNet, h, hct, hj, hv]
      · simp [methodPostRequest, constNet, h, hct, hj]
  · rcases hct : r.contentType with _ | ct
    · simp [methodPostRequest, bodyClassification, constNet, hct]
    · by_cases hj : strContains "application/json" ct
      · rcases hv : r.jsonBody with _ | v <;>
          simp [methodPostRequest, bodyClassification, constNet, hct, hj, hv]
      · simp [methodPostRequest, bodyClassification, constNet, hct, hj]

/-- Claim C6 witness: the amended statement at the 404 response above. -/
theorem c6_witness :
    Effect.logStatusError c6resp.status
        ∈ (methodPostRequest (constNet c6resp) "https://api.netatmo.com/api/getmeasure" []).1
      ∧ (methodPostRequest (constNet c6resp) "https://api.netatmo.com/api/getmeasure" []).2
        = bodyClassification c6resp :=
  c6_log_and_return_body c6resp "https://api.netatmo.com/api/getmeasure" [] rfl

/-! ## Claim C7 -/

/-- Claim C7: whenever the wrapped OAuth2 session refresh succeeds with a new
token and a token updater callback was supplied, refresh_tokens invokes the
updater with that token among its synchronous effects and only then returns
the token. -/
theorem c7_updater_called (s : NetState) (t : JVal) (h : s.hasUpdater = true) :
    refresh_tokens s (.ok t)
      = ([Effect.logRefreshedToken t, Effect.updaterCall t], .ok t) := by
  simp [refresh_tokens, h]

/-- Claim C7 witness: a concrete successful refresh with an updater supplied. -/
theorem c7_witness :
    refresh_tokens { hasUpdater := true } (.ok (JVal.str "T2"))
      = ([Effect.logRefreshedToken (JVal.str "T2"),
          Effect.updaterCall (JVal.str "T2")], .ok (JVal.str "T2")) :=
  c7_updater_called { hasUpdater := true } (JVal.str "T2") rfl

/-! ## Claim C8 -/

/-- A response declaring a JSON content type whose body does not decode. -/
def c8resp : HttpResponse :=
  { ok := true, status := 200, contentType := some "application/json",
    jsonBody := none, content := [60, 104, 116, 109, 108, 62] }

/-- A response with no content type header at all. -/
def c8noCT : HttpResponse :=
  { ok := true, status := 200, contentType := none, jsonBody := none,
    content := [1, 2] }

/-- Claim C8 counterexample: a response that declares a JSON content type but
whose body cannot be decoded as JSON raises a decode error to the caller
instead of being logged and yielding None; the try block catches TypeError
only. -/
theorem c8_decode_error_counterexample :
    (methodPostRequest (constNet c8resp) "https://api.netatmo.com/api/gethomedata" []).2
      = .error PyError.jsonDecodeError := rfl

/-- Claim C8 (amended): the body is classified by content type: a declared JSON
content type is parsed into structured data when the body decodes and raises a
decode error when it does not; any other declared content type is returned as
raw bytes; only a response with no content type header at all is logged and
yields None. -/
theorem c8_classification (r : HttpResponse) (url : String)
    (params : List (String × JVal)) :
    (methodPostRequest (constNet r) url params).2 = bodyClassification r
      ∧ (r.contentType = none →
          Effect.logInvalidResponse ∈ (methodPostRequest (constNet r) url params).1) := by
  constructor
  · rcases hct : r.contentType with _ | ct
    · simp [methodPostRequest, bodyClassification, constNet, hct]
    · by_cases hj : strContains "application/json" ct
      · rcases hv : r.jsonBody with _ | v <;>
          simp [methodPostRequest, bodyClassification, constNet, hct, hj, hv]
      · simp [methodPostRequest, bodyClassification, constNet, hct, hj]
  · intro hct
    simp [methodPostRequest, constNet, hct]

/-- Claim C8 witness: the logged None case at a concrete response with no
content type header. -/
theorem c8_witness :
    Effect.logInvalidResponse
      ∈ (methodPostRequest (constNet c8noCT) "https://api.netatmo.com/api/gethomedata" []).1 :=
  (c8_classification c8noCT "https://api.netatmo.com/api/gethomedata" []).2 rfl

/-! ## Claim C9 -/

/-- A Credential whose stored expiry 3000 is in the past at now 5000. -/
def c9state : ClientAuthState :=
  { _clientId := JVal.str "CID9", _clientSecret := JVal.str "SEC9",
    _accessToken := JVal.str "A9", token := RespValue.json (JVal.obj codeGrantResp),
    refreshToken := JVal.str "R9", _scope := JVal.str "read_station",
    expiration := 3000 }

/-- Claim C9 (code bug evaluation): the premise of the claim, a successful
automatic refresh through the accessToken property, is unreachable. At now
5000, past the stored expiry 3000, with the network ready to serve a complete
refresh response, the property raises AttributeError before issuing any
request, so the assignment block of auth.py lines 101 to 103 (which touches
only _accessToken, refreshToken and expiration, leaving the client id, the
secret, the scope and the stored token dict alone) never runs. -/
theorem c9_refresh_never_succeeds :
    clientAuthAccessToken c2net 5000 c9state
      = ([], .error (.attributeError "accessToken")) := rfl

/-! ## Claim C10 -/

/-- A Credential far from expiry, so the helper never enters the refresh path. -/
def c10state : ClientAuthState :=
  { _clientId := JVal.str "CIDX", _clientSecret := JVal.str "SECX",
    _accessToken := JVal.str "AX", token := RespValue.json (JVal.obj codeGrantResp),
    refreshToken := JVal.str "RX", _scope := JVal.str "read_station",
    expiration := 1000000000 }

/-- A network serving a JSON array body. -/
def c10net : Net := constNet (jsonOkResp (JVal.arr []))

/-- Claim C10 counterexample: a wrapped call yielding a parsed JSON array,
which is not dictionary like, passes the membership test of helpers.py line 15
without a TypeError and the helper returns normally (with the errors debug
line logged), refuting returns normally only for dictionary like bodies. -/
theorem c10_array_counterexample :
    helpersPostRequest c10net 0 (.client c10state)
        "https://api.netatmo.com/api/gethomedata" []
      = ([Effect.httpPost "https://api.netatmo.com/api/gethomedata"
            [("access_token", JVal.str "AX")], Effect.logErrorsInResponse],
         .ok (RespValue.json (JVal.arr []), .client c10state)) := rfl

/-- Claim C10 (amended): when the wrapped call yields None (no content type
header) or raw bytes (a non JSON content type), the membership test of
helpers.py line 15 raises TypeError, so the no data result never reaches the
caller; but normal return is not limited to dictionary like bodies: a parsed
JSON array or string passes the test as well. -/
theorem c10_none_bytes_type_error (s : ClientAuthState) (now : Int)
    (r : HttpResponse) (url : String) (params : List (String × JVal))
    (hfresh : ¬ s.expiration < now) :
    (r.contentType = none →
      (helpersPostRequest (constNet r) now (.client s) url params).2
        = .error .typeError)
    ∧ (∀ ct, r.contentType = some ct → strContains "application/json" ct = false →
        (helpersPostRequest (constNet r) now (.client s) url params).2
          = .error .typeError) := by
  constructor
  · intro hct
    simp [helpersPostRequest, clientAuthAccessToken, hfresh, methodPostRequest,
      constNet, hct, checkErrors, pyContains]
  · intro ct hct hjson
    simp [helpersPostRequest, clientAuthAccessToken, hfresh, methodPostRequest,
      constNet, hct, hjson, checkErrors, pyContains]

/-- Claim C10 witness: a concrete wrapped None result makes the helper raise
TypeError. -/
theorem c10_witness :
    (helpersPostRequest (constNet c8noCT) 0 (.client c10state)
        "https://api.netatmo.com/api/gethomedata" []).2 = .error .typeError :=
  (c10_none_bytes_type_error c10state 0 c8noCT
    "https://api.netatmo.com/api/gethomedata" [] (by decide)).1 rfl

/-! ## Claim C4 -/

/-- A POST to any endpoint other than the token endpoint contributes no token
endpoint POST to the trace. -/
theorem refreshPosts_methodPostRequest (net : Net) (url : String)
    (params : List (String × JVal)) (h : url ≠ _AUTH_REQ) :
    refreshPosts (methodPostRequest net url params).1 = 0 := by
  rcases hct : (net url params).contentType with _ | ct
  · by_cases hok : (net url params).ok <;>
      simp [methodPostRequest, refreshPosts, hct, hok, h]
  · by_cases hok : (net url params).ok <;>
      by_cases hj : strContains "application/json" ct
    · rcases hv : (net url params).jsonBody with _ | v <;>
        simp [methodPostRequest, refreshPosts, hct, hok, hj, hv, h]
    · simp [methodPostRequest, refreshPosts, hct, hok, hj, h]
    · rcases hv : (net url params).jsonBody with _ | v <;>
        simp [methodPostRequest, refreshPosts, hct, hok, hj, hv, h]
    · simp [methodPostRequest, refreshPosts, hct, hok, hj, h]

/-- Claim C4: an authenticated call made while now is strictly before the
stored expiry performs no refresh: the token endpoint is never contacted (the
trace holds no POST to it), and whenever the call returns a result, the
Credential coming back is exactly the one that went in (no field changed). -/
theorem c4_fresh_call_no_refresh (net : Net) (now : Int) (s : ClientAuthState)
    (url : String) (params : List (String × JVal)) (hfresh : now < s.expiration)
    (hurl : url ≠ _AUTH_REQ) :
    refreshPosts (helpersPostRequest net now (.client s) url params).1 = 0
      ∧ (resultAuth (helpersPostRequest net now (.client s) url params) = none
         ∨ resultAuth (helpersPostRequest net now (.client s) url params)
             = some (.client s)) := by
  have hno : ¬ s.expiration < now := by omega
  have hm := refreshPosts_methodPostRequest net url
    (pyDictUpdate [("access_token", s._accessToken)] params) hurl
  rcases hx : methodPostRequest net url
      (pyDictUpdate [("access_token", s._accessToken)] params) with ⟨tr2, res⟩
  rw [hx] at hm
  rcases res with e | resp
  · simp [helpersPostRequest, clientAuthAccessToken, hno, hx, resultAuth,
      refreshPosts] at hm ⊢
    exact hm
  · rcases hc : checkErrors resp with e | b
    · simp [helpersPostRequest, clientAuthAccessToken, hno, hx, hc, resultAuth,
        refreshPosts] at hm ⊢
      exact hm
    · rcases b with _ | _ <;>
        simp [helpersPostRequest, clientAuthAccessToken, hno, hx, hc, resultAuth,
          refreshPosts, List.countP_append] at hm ⊢ <;>
        exact hm

/-- Claim C4 witness: a concrete fresh call contacts only the API endpoint and
hands the Credential back unchanged. -/
theorem c4_witness :
    refreshPosts (helpersPostRequest c10net 100 (.client c10state)
        "https://api.netatmo.com/api/getstationsdata" []).1 = 0
      ∧ (resultAuth (helpersPostRequest c10net 100 (.client c10state)
            "https://api.netatmo.com/api/getstationsdata" []) = none
         ∨ resultAuth (helpersPostRequest c10net 100 (.client c10state)
              "https://api.netatmo.com/api/getstationsdata" [])
             = some (.client c10state)) :=
  c4_fresh_call_no_refresh c10net 100 c10state
    "https://api.netatmo.com/api/getstationsdata" [] (by decide) (by decide)

/-! ## Claim C5 -/

/-- Claim C5 counterexample: a token endpoint response lacking an access token
does not necessarily fail with AuthError: when the response (here the empty
JSON object) also lacks an error field, the log line inside the except handler
raises a second KeyError, which escapes in place of the AuthError. -/
theorem c5_no_auth_error_counterexample :
    (clientAuthInitOn [] 1000).2 = .error (.keyError "error")
      ∧ isAuthError (.keyError "error") = false :=
  ⟨rfl, rfl⟩

/-- Claim C5 (amended): the initial grant exchange fails with the AuthError
exception (NoDevice) precisely when the token endpoint JSON object lacks an
access token but carries an error field; lacking both, a KeyError escapes from
the log line of the handler instead. With an access token present,
construction succeeds and stores it provided refresh_token, scope and
expire_in are present as well (each missing one raises KeyError). -/
theorem c5_init_characterization (o : List (String × JVal)) (t : Int) :
    ((clientAuthInitOn o t).2
        = .error (.noDevice "Authentication against Netatmo API failed")
      ↔ o.lookup "access_token" = none ∧ (o.lookup "error").isSome = true)
    ∧ ∀ a r sc (lifetime : Int), o.lookup "access_token" = some a →
        o.lookup "refresh_token" = some r → o.lookup "scope" = some sc →
        o.lookup "expire_in" = some (JVal.num lifetime) →
        (clientAuthInitOn o t).2 = .ok
          { _clientId := JVal.str "CID", _clientSecret := JVal.str "SEC",
            _accessToken := a, token := RespValue.json (JVal.obj o),
            refreshToken := r, _scope := sc,
            expiration := lifetime + t - 1800 } := by
  constructor
  · constructor
    · intro h
      rcases ha : o.lookup "access_token" with _ | a
      · rcases he : o.lookup "error" with _ | e
        · exfalso
          simp [clientAuthInitOn, clientAuthInit, methodPostRequest, constNet,
            jsonOkResp, strContains_appjson, subscr, ha, he] at h
        · exact ⟨rfl, rfl⟩
      · exfalso
        rcases hr : o.lookup "refresh_token" with _ | r
        · simp [clientAuthInitOn, clientAuthInit, methodPostRequest, constNet,
            jsonOkResp, strContains_appjson, subscr, ha, hr] at h
        · rcases hs : o.lookup "scope" with _ | sc
          · simp [clientAuthInitOn, clientAuthInit, methodPostRequest, constNet,
              jsonOkResp, strContains_appjson, subscr, ha, hr, hs] at h
          · rcases hL : o.lookup "expire_in" with _ | L
            · simp [clientAuthInitOn, clientAuthInit, methodPostRequest, constNet,
                jsonOkResp, strContains_appjson, subscr, ha, hr, hs, hL] at h
            · cases L <;>
                simp [clientAuthInitOn, clientAuthInit, methodPostRequest, constNet,
                  jsonOkResp, strContains_appjson, subscr, ha, hr, hs, hL] at h
    · rintro ⟨ha, he⟩
      rcases hoe : o.lookup "error" with _ | e
      · rw [hoe] at he; simp at he
      · simp [clientAuthInitOn, clientAuthInit, methodPostRequest, constNet,
          jsonOkResp, strContains_appjson, subscr, ha, hoe]
  · intro a r sc lifetime ha hr hs hL
    exact clientAuthInitOn_success o t a r sc lifetime ha hr hs hL

/-- Claim C5 witness: both directions of the amended statement at concrete
responses: an error body yields the AuthError, and a complete grant body
yields a constructed Credential storing the access token. -/
theorem c5_witness :
    (clientAuthInitOn [("error", JVal.str "invalid_client")] 5).2
        = .error (.noDevice "Authentication against Netatmo API failed")
      ∧ (clientAuthInitOn codeGrantResp 7).2 = .ok
          { _clientId := JVal.str "CID", _clientSecret := JVal.str "SEC",
            _accessToken := JVal.str "A1",
            token := RespValue.json (JVal.obj codeGrantResp),
            refreshToken := JVal.str "R1", _scope := JVal.str "read_station",
            expiration := 3600 + 7 - 1800 } :=
  ⟨(c5_init_characterization [("error", JVal.str "invalid_client")] 5).1.mpr
      ⟨rfl, rfl⟩,
   (c5_init_characterization codeGrantResp 7).2 (JVal.str "A1") (JVal.str "R1")
      (JVal.str "read_station") 3600 rfl rfl rfl rfl⟩

end Pyatmo
